import Mathlib

/-!
# Verification of the `scanner` side-effect scanner

A shallow embedding of `scanner/cli.py`: a tool that walks the clang AST of a
C++ file and reports four kinds of "side-effect" expressions per function.

The clang parser itself is an external collaborator (the spec's "AST Facade"):
cursors, their kinds, types and extents are modelled as explicit data, and the
Python functions `full_name_from_cursor`, `has_side_effects`, `scan_function`,
`print_side_effect_info` and the loop of `main` are translated definition by
definition.  Source lines and columns are 1-based, as in the spec's §3
convention; Python's negative-index wraparound (a cursor on line 0) lies
outside that convention and is not modelled.
-/

namespace Scanner

/-- The cursor-kind constants of the clang binding that `cli.py` mentions.
`POINTER_TYPE` and `LVALUE_REFERENCE` are modelled from the spec: `cli.py`
compares a *type* kind against `CursorKind.POINTER_TYPE` and
`CursorKind.LVALUE_REFERENCE`, and the spec (§4.2) directs that this literal
comparison against cursor-kind constants — values from a different enum domain
than any type kind — be reproduced as-is. -/
inductive CursorKind where
  | UNARY_OPERATOR
  | BINARY_OPERATOR
  | CXX_NEW_EXPR
  | CXX_THROW_EXPR
  | FUNCTION_DECL
  | CXX_METHOD
  | PARM_DECL
  | COMPOUND_STMT
  | DECL_STMT
  | VAR_DECL
  | DECL_REF_EXPR
  | INTEGER_LITERAL
  | CXX_NULL_PTR_LITERAL_EXPR
  | POINTER_TYPE
  | LVALUE_REFERENCE
deriving DecidableEq

/-- The type-kind constants of the clang binding (values of `Type.kind`). -/
inductive TypeKind where
  | INVALID
  | POINTER
  | LVALUEREFERENCE
  | INT
  | VOID
  | NULLPTR
  | UNEXPOSED
deriving DecidableEq

/-- A Python enum object: the members of the binding's `CursorKind` and
`TypeKind` classes are pairwise distinct objects, so an equality test between
a cursor-kind member and a type-kind member is `False` in Python; the two
constructors keep the domains disjoint exactly as object identity does. -/
inductive PyEnumVal where
  | ck : CursorKind → PyEnumVal
  | tk : TypeKind → PyEnumVal
deriving DecidableEq

/-- A clang `Type` as read by `cli.py`: its kind, const-qualification, the
pointee (`get_pointee` yields the invalid type when there is none, as the
binding does for non-pointer types) and the canonical type (`none` when the
type is already canonical). -/
inductive CType where
  | mk (kind : TypeKind) (const_qualified : Bool)
       (pointee : Option CType) (canon : Option CType)

/-- `Type.kind`. -/
def CType.kind : CType → TypeKind
  | .mk k _ _ _ => k

/-- `Type.is_const_qualified()`. -/
def CType.is_const_qualified : CType → Bool
  | .mk _ q _ _ => q

/-- The invalid type, returned by `get_pointee` on a non-pointer type. -/
def CType.invalid : CType := .mk TypeKind.INVALID false none none

/-- `Type.get_pointee()`: the pointee for pointer-like types, otherwise the
invalid type. -/
def CType.get_pointee : CType → CType
  | .mk _ _ pointee _ => pointee.getD CType.invalid

/-- `Type.canonical`: the type after typedef/alias resolution (itself when
already canonical). -/
def CType.canonical : CType → CType
  | .mk k q p co => co.getD (.mk k q p co)

/-- A source location: 1-based line and column (`SourceLocation.line`,
`SourceLocation.column` in the binding). -/
structure SourceLocation where
  line : Nat
  column : Nat
deriving DecidableEq

/-- A source range (`Cursor.extent`): file name plus start and end locations;
`stop` stands for the Python attribute `end`.  Columns are end-exclusive in
the sense of §3: slicing `[start_col, end_col)` yields the covered text. -/
structure SourceRange where
  file : String
  start : SourceLocation
  stop : SourceLocation
deriving DecidableEq

mutual
/-- A clang cursor as read by `cli.py`: syntactic kind, spelling, type,
location, extent and ordered children.  The `CursorList` of children makes
the tree a mutual inductive so that the traversal of `has_side_effects` is
plain structural recursion. -/
inductive Cursor where
  | mk (kind : CursorKind) (spelling : String) (type : CType)
       (location : SourceLocation) (extent : SourceRange)
       (children : CursorList)

/-- The ordered children of a cursor (`Cursor.get_children()`). -/
inductive CursorList where
  | nil
  | cons (head : Cursor) (tail : CursorList)
end

/-- `Cursor.kind`. -/
def Cursor.kind : Cursor → CursorKind
  | .mk k _ _ _ _ _ => k

/-- `Cursor.spelling`. -/
def Cursor.spelling : Cursor → String
  | .mk _ sp _ _ _ _ => sp

/-- `Cursor.type`. -/
def Cursor.type : Cursor → CType
  | .mk _ _ ty _ _ _ => ty

/-- `Cursor.location`. -/
def Cursor.location : Cursor → SourceLocation
  | .mk _ _ _ loc _ _ => loc

/-- `Cursor.extent`. -/
def Cursor.extent : Cursor → SourceRange
  | .mk _ _ _ _ ext _ => ext

/-- `Cursor.get_children()`. -/
def Cursor.children : Cursor → CursorList
  | .mk _ _ _ _ _ ch => ch

/-- `Cursor.canonical`: for the expression cursors the classifier inspects,
the canonical cursor is the cursor itself (clang's canonical cursor differs
only for redeclared entities). -/
def Cursor.canonical (c : Cursor) : Cursor := c

/-- Conversion from a plain list of cursors, used to state theorems with
ordinary list operations. -/
def CursorList.ofList : List Cursor → CursorList
  | [] => .nil
  | c :: rest => .cons c (CursorList.ofList rest)

/-- The five report tags (`class SideEffectKind(enum.Enum)`). -/
inductive SideEffectKind where
  | DEREFERENCE_NON_CONST_POINTER
  | ASSIGN_TO_POINTER_OR_REFERENCE
  | DYNAMIC_MEMORY_ALLOCATION
  | THROW_EXCEPTION
  | OTHER
deriving DecidableEq

/-- `SideEffectKind.name` of the Python enum member. -/
def SideEffectKind.name : SideEffectKind → String
  | .DEREFERENCE_NON_CONST_POINTER => "DEREFERENCE_NON_CONST_POINTER"
  | .ASSIGN_TO_POINTER_OR_REFERENCE => "ASSIGN_TO_POINTER_OR_REFERENCE"
  | .DYNAMIC_MEMORY_ALLOCATION => "DYNAMIC_MEMORY_ALLOCATION"
  | .THROW_EXCEPTION => "THROW_EXCEPTION"
  | .OTHER => "OTHER"

/-- `@dataclass class SideEffectInfo`: the `location` field holds the
matched cursor's extent, exactly as in the Python dataclass. -/
structure SideEffectInfo where
  kind : SideEffectKind
  location : SourceRange
  code : String
deriving DecidableEq

/-! ### String helpers

Python string primitives used by `full_name_from_cursor`, written over the
character list of a `String` so every definition reduces in the kernel. -/

/-- Worker for `splitlines`: `acc` holds the current line reversed. -/
def splitlines_go (acc : List Char) : List Char → List String
  | [] => if acc.isEmpty then [] else [String.mk acc.reverse]
  | ch :: rest =>
    if ch = '\n' then String.mk acc.reverse :: splitlines_go [] rest
    else splitlines_go (ch :: acc) rest

/-- Python `str.splitlines()` for `\n`-separated text: no empty final line
for text ending in a newline, and `"".splitlines() == []`. -/
def splitlines (s : String) : List String :=
  splitlines_go [] s.data

/-- Python slicing `s[a:b]` for `0 ≤ a, b` (clamped at the ends). -/
def py_slice (s : String) (a b : Nat) : String :=
  String.mk ((s.data.take b).drop a)

/-- Python `str.strip()` for ASCII whitespace. -/
def py_strip (s : String) : String :=
  String.mk (((s.data.dropWhile Char.isWhitespace).reverse.dropWhile
    Char.isWhitespace).reverse)

/-- Python `s.endswith(";")`. -/
def ends_with_semicolon (s : String) : Bool :=
  s.data.getLast? = some ';'

/-- Python `s[:-1]`. -/
def py_drop_last (s : String) : String :=
  String.mk s.data.dropLast

/-- `full_name_from_cursor(cursor, filename)`: reconstructs the source text
of a cursor's extent from the file contents.  `content` stands for the text
of the file named `translation_unit.spelling`, which the Python function
re-reads on every call.  Out-of-range line indexing (a Python `IndexError`)
is embedded as the empty line; the single-line branch reads its row from
`cursor.location.line`, the multi-line branch from the extent, exactly as
the Python indexing does. -/
def full_name_from_cursor (content : String) (cursor : Cursor) : String :=
  let lines := splitlines content
  let full_name :=
    if cursor.extent.start.line = cursor.extent.stop.line then
      py_strip (py_slice (lines.getD (cursor.location.line - 1) "")
        (cursor.extent.start.column - 1) (cursor.extent.stop.column - 1))
    else
      let first := py_strip (lines.getD (cursor.extent.start.line - 1) "")
      let with_mids := (List.range' cursor.extent.start.line
          (cursor.extent.stop.line - 1 - cursor.extent.start.line)).foldl
          (fun acc l => acc ++ " " ++ py_strip (lines.getD l "")) first
      with_mids ++ " " ++ py_strip (lines.getD (cursor.extent.stop.line - 1) "")
  if ends_with_semicolon full_name then py_strip (py_drop_last full_name)
  else full_name

/-- The body of `has_side_effects` that examines the node itself — the
spec's `classify(node)`: the `if`/`elif` chain of `cli.py` lines 41-70,
keyed on the cursor kind, first match wins.  The assignment branch keeps
the source's literal comparison of the stripped left-hand type's *type*
kind against the *cursor*-kind constants `CursorKind.POINTER_TYPE` and
`CursorKind.LVALUE_REFERENCE`. -/
def classify (content : String) (cursor : Cursor) : Option SideEffectInfo :=
  if cursor.kind = CursorKind.UNARY_OPERATOR then
    if cursor.canonical.spelling = "operator*" then
      let pointee_type := cursor.type.get_pointee.canonical
      if !pointee_type.is_const_qualified then
        some { kind := SideEffectKind.DEREFERENCE_NON_CONST_POINTER,
               location := cursor.extent,
               code := full_name_from_cursor content cursor }
      else none
    else none
  else if cursor.kind = CursorKind.BINARY_OPERATOR then
    if cursor.canonical.spelling = "operator=" ∨
        cursor.canonical.spelling = "operator&=" then
      let lhs_type := cursor.canonical.type.get_pointee.canonical
      if PyEnumVal.tk lhs_type.kind ∈
          [PyEnumVal.ck CursorKind.POINTER_TYPE,
           PyEnumVal.ck CursorKind.LVALUE_REFERENCE] then
        some { kind := SideEffectKind.ASSIGN_TO_POINTER_OR_REFERENCE,
               location := cursor.extent,
               code := full_name_from_cursor content cursor }
      else none
    else none
  else if cursor.kind = CursorKind.CXX_NEW_EXPR then
    some { kind := SideEffectKind.DYNAMIC_MEMORY_ALLOCATION,
           location := cursor.extent,
           code := full_name_from_cursor content cursor }
  else if cursor.kind = CursorKind.CXX_THROW_EXPR then
    some { kind := SideEffectKind.THROW_EXCEPTION,
           location := cursor.extent,
           code := full_name_from_cursor content cursor }
  else none

mutual
/-- `has_side_effects(cursor, translation_unit)`: classify the node itself;
when no branch returned, walk the children in order and return the first
side effect found in any child's subtree (the short-circuit of the `for`
loop at lines 72-75). -/
def has_side_effects (content : String) : Cursor → Option SideEffectInfo
  | .mk k sp ty loc ext children =>
    match classify content (.mk k sp ty loc ext children) with
    | some side_effect => some side_effect
    | none => children_side_effect content children

/-- The `for child in cursor.get_children()` loop of `has_side_effects`:
first `some` result wins. -/
def children_side_effect (content : String) : CursorList → Option SideEffectInfo
  | .nil => none
  | .cons child rest =>
    match has_side_effects content child with
    | some side_effect => some side_effect
    | none => children_side_effect content rest
end

/-- The `for child in cursor.get_children()` loop of `scan_function`:
append the result of `has_side_effects` for each child that produced one. -/
def scan_children (content : String) : CursorList → List SideEffectInfo
  | .nil => []
  | .cons child rest =>
    match has_side_effects content child with
    | some side_effect => side_effect :: scan_children content rest
    | none => scan_children content rest

/-- `scan_function(cursor, translation_unit)`: one `has_side_effects` call
per direct child of the function cursor, collecting the hits in order. -/
def scan_function (content : String) (cursor : Cursor) : List SideEffectInfo :=
  scan_children content cursor.children

/-- `print_side_effect_info(function_name, side_effects)` as the list of
printed lines (one `print` call per element; the trailing bare `print()`
is the empty line).  The `"Funciton"` typo is the source's. -/
def print_side_effect_info (function_name : String)
    (side_effects : List SideEffectInfo) : List String :=
  ("Funciton: " ++ function_name) ::
  (side_effects.map (fun side_effect =>
    [ "Side effect found: " ++ side_effect.kind.name,
      "Location: " ++ side_effect.location.file ++ ":"
        ++ toString side_effect.location.start.line ++ ":"
        ++ toString side_effect.location.start.column ++ " - "
        ++ toString side_effect.location.stop.line ++ ":"
        ++ toString side_effect.location.stop.column,
      "Code: " ++ side_effect.code,
      "" ])).flatten

/-- The scanning loop of `main` (lines 109-116): walk the translation
unit's direct children, scan those whose kind is `CXX_METHOD` or
`FUNCTION_DECL`, print a block for each function with findings, and clear
the `no_side_effects` flag when one is printed. -/
def main_loop (content : String) : CursorList → Bool → List String
  | .nil, no_side_effects =>
    if no_side_effects then ["No side effects found."] else []
  | .cons cursor rest, no_side_effects =>
    if cursor.kind = CursorKind.CXX_METHOD ∨
        cursor.kind = CursorKind.FUNCTION_DECL then
      let side_effects := scan_function content cursor
      if side_effects ≠ [] then
        print_side_effect_info cursor.spelling side_effects
          ++ main_loop content rest false
      else main_loop content rest no_side_effects
    else main_loop content rest no_side_effects

/-- The whole output of `main` after parsing, given the file contents and
the translation unit's direct children: the loop starts with
`no_side_effects = True` and the summary line is printed after it. -/
def main_output (content : String) (tu_children : CursorList) : List String :=
  main_loop content tu_children true

/-! ### The four side-effect patterns as node predicates

Boolean restatements (from the spec's §4.2 pattern list) of the guard of
each branch of the classifier, used to express which nodes match. -/

/-- §4.2 pattern 1: unary-dereference operator over a non-const pointee
(the type inspected is the node's own, stripped of one indirection). -/
def deref_pattern (c : Cursor) : Bool :=
  decide (c.kind = CursorKind.UNARY_OPERATOR) &&
  decide (c.canonical.spelling = "operator*") &&
  !c.type.get_pointee.canonical.is_const_qualified

/-- §4.2 pattern 2: binary assignment spelled `=` or `&=` whose stripped
left-hand type has pointer-type or lvalue-reference-type kind under the
source's literal comparison against cursor-kind constants. -/
def assign_pattern (c : Cursor) : Bool :=
  decide (c.kind = CursorKind.BINARY_OPERATOR) &&
  (decide (c.canonical.spelling = "operator=") ||
   decide (c.canonical.spelling = "operator&=")) &&
  decide (PyEnumVal.tk c.canonical.type.get_pointee.canonical.kind ∈
    [PyEnumVal.ck CursorKind.POINTER_TYPE,
     PyEnumVal.ck CursorKind.LVALUE_REFERENCE])

/-- §4.2 pattern 3: heap allocation (`new`-expression), unconditional. -/
def alloc_pattern (c : Cursor) : Bool :=
  decide (c.kind = CursorKind.CXX_NEW_EXPR)

/-- §4.2 pattern 4: throw-expression, unconditional. -/
def throw_pattern (c : Cursor) : Bool :=
  decide (c.kind = CursorKind.CXX_THROW_EXPR)

/-- A node matches some pattern of §4.2. -/
def matches_pattern (c : Cursor) : Bool :=
  deref_pattern c || assign_pattern c || alloc_pattern c || throw_pattern c

mutual
/-- No node of the cursor's subtree (itself included) matches a pattern. -/
def cursor_pattern_free : Cursor → Bool
  | .mk k sp ty loc ext children =>
    !matches_pattern (.mk k sp ty loc ext children) &&
    children_pattern_free children

/-- No node of any subtree in the list matches a pattern. -/
def children_pattern_free : CursorList → Bool
  | .nil => true
  | .cons c rest => cursor_pattern_free c && children_pattern_free rest
end

/-! ### Bridge lemmas -/

/-- Unfolding equation for `has_side_effects`. -/
theorem has_side_effects_def (content : String) (c : Cursor) :
    has_side_effects content c =
      match classify content c with
      | some side_effect => some side_effect
      | none => children_side_effect content c.children := by
  cases c
  rfl

/-- A node the classifier matches yields exactly its own finding: the
children are never consulted, which is the suppression of matches nested
inside an already-matched subtree. -/
theorem has_side_effects_of_classify (content : String) (c : Cursor)
    (f : SideEffectInfo) (h : classify content c = some f) :
    has_side_effects content c = some f := by
  rw [has_side_effects_def, h]

/-- `scan_children` over a converted list is a `filterMap`. -/
theorem scan_children_ofList (content : String) (l : List Cursor) :
    scan_children content (CursorList.ofList l) =
      l.filterMap (has_side_effects content) := by
  induction l with
  | nil => rfl
  | cons c rest ih =>
    simp only [CursorList.ofList, scan_children, List.filterMap_cons]
    cases has_side_effects content c <;> simp [ih]

/-- `filterMap` of an all-`none` block contributes nothing. -/
theorem filterMap_none_of_all_none (content : String) (l : List Cursor)
    (h : ∀ x ∈ l, has_side_effects content x = none) :
    l.filterMap (has_side_effects content) = [] := by
  induction l with
  | nil => rfl
  | cons c rest ih =>
    rw [List.filterMap_cons, h c (by simp)]
    exact ih (fun x hx => h x (by simp [hx]))

/-- The classifier's result is controlled by `matches_pattern`: a match
produces the branch's finding and a non-match produces `none`. -/
theorem classify_eq_none_iff (content : String) (c : Cursor) :
    classify content c = none ↔ matches_pattern c = false := by
  rcases c with ⟨k, sp, ty, loc, ext, ch⟩
  cases k <;>
    simp [classify, matches_pattern, deref_pattern, assign_pattern,
      alloc_pattern, throw_pattern, Cursor.canonical, Cursor.kind,
      Cursor.spelling, Cursor.type]

mutual
/-- A subtree without any matching node yields no side effect. -/
theorem hse_none_of_pattern_free (content : String) :
    ∀ c : Cursor, cursor_pattern_free c = true →
      has_side_effects content c = none
  | .mk k sp ty loc ext children, h => by
    have h' : matches_pattern (Cursor.mk k sp ty loc ext children) = false ∧
        children_pattern_free children = true := by
      simpa [cursor_pattern_free] using h
    show (match classify content (Cursor.mk k sp ty loc ext children) with
          | some side_effect => some side_effect
          | none => children_side_effect content children) = none
    rw [(classify_eq_none_iff content _).2 h'.1]
    exact cse_none_of_pattern_free content children h'.2

/-- A list of subtrees without any matching node yields no side effect. -/
theorem cse_none_of_pattern_free (content : String) :
    ∀ l : CursorList, children_pattern_free l = true →
      children_side_effect content l = none
  | .nil, _ => rfl
  | .cons c rest, h => by
    have h' : cursor_pattern_free c = true ∧
        children_pattern_free rest = true := by
      simpa [children_pattern_free] using h
    show (match has_side_effects content c with
          | some side_effect => some side_effect
          | none => children_side_effect content rest) = none
    rw [hse_none_of_pattern_free content c h'.1]
    exact cse_none_of_pattern_free content rest h'.2
end

/-- `scan_children` of a pattern-free list of subtrees is empty. -/
theorem scan_children_nil_of_pattern_free (content : String) :
    ∀ l : CursorList, children_pattern_free l = true →
      scan_children content l = []
  | .nil, _ => rfl
  | .cons c rest, h => by
    have h' : cursor_pattern_free c = true ∧
        children_pattern_free rest = true := by
      simpa [children_pattern_free] using h
    show (match has_side_effects content c with
          | some side_effect => side_effect :: scan_children content rest
          | none => scan_children content rest) = []
    rw [hse_none_of_pattern_free content c h'.1]
    exact scan_children_nil_of_pattern_free content rest h'.2

/-! ### The spec's end-to-end example (§8)

The AST of

```
void f(int* p) {
    int x = *p;
    int* q = nullptr;
    int* r = new int(5);
    throw 1;
}
```

The clang library that produces the tree is external to the repository, so
the tree is modelled from the spec: §4.3 treats each top-level statement of
the scanned function as a separate direct child of the function node, §8
treats the `q = nullptr` initialisation as an assignment-operator node (one
that fails the type-kind check of §4.2), and the classifier's facade
contract (§4.1-§4.2) supplies the node types. -/

/-- The canonical `int` type. -/
def intT : CType := .mk TypeKind.INT false none none

/-- The canonical `int*` type. -/
def intPtrT : CType := .mk TypeKind.POINTER false (some intT) none

/-- The canonical `const int` type. -/
def constIntT : CType := .mk TypeKind.INT true none none

/-- The canonical `const int*` type (pointer to const int). -/
def constIntPtrT : CType := .mk TypeKind.POINTER false (some constIntT) none

/-- The `nullptr_t` type. -/
def nullptrT : CType := .mk TypeKind.NULLPTR false none none

/-- The `void` type. -/
def voidT : CType := .mk TypeKind.VOID false none none

/-- The example file's text. -/
def exampleContent : String :=
  "void f(int* p) \x7b\n    int x = *p;\n    int* q = nullptr;\n" ++
  "    int* r = new int(5);\n    throw 1;\n\x7d\n"

/-- The example file's name. -/
def exampleFile : String := "example.cpp"

/-- `p` inside `*p` (line 2). -/
def pRefCursor : Cursor :=
  .mk .DECL_REF_EXPR "p" intPtrT ⟨2, 14⟩ ⟨exampleFile, ⟨2, 14⟩, ⟨2, 15⟩⟩ .nil

/-- The dereference `*p` (line 2, columns 13-15); per the facade contract
its exposed type is the operand's pointer type `int*`. -/
def derefCursor : Cursor :=
  .mk .UNARY_OPERATOR "operator*" intPtrT ⟨2, 13⟩
    ⟨exampleFile, ⟨2, 13⟩, ⟨2, 15⟩⟩ (.cons pRefCursor .nil)

/-- `int x = *p;` — the variable declaration. -/
def varXCursor : Cursor :=
  .mk .VAR_DECL "x" intT ⟨2, 9⟩ ⟨exampleFile, ⟨2, 5⟩, ⟨2, 15⟩⟩
    (.cons derefCursor .nil)

/-- `int x = *p;` — the declaration statement (line 2). -/
def declStmt1 : Cursor :=
  .mk .DECL_STMT "" voidT ⟨2, 5⟩ ⟨exampleFile, ⟨2, 5⟩, ⟨2, 16⟩⟩
    (.cons varXCursor .nil)

/-- `q` on the left of the modelled assignment (line 3). -/
def qRefCursor : Cursor :=
  .mk .DECL_REF_EXPR "q" intPtrT ⟨3, 10⟩ ⟨exampleFile, ⟨3, 10⟩, ⟨3, 11⟩⟩ .nil

/-- `nullptr` (line 3). -/
def nullLitCursor : Cursor :=
  .mk .CXX_NULL_PTR_LITERAL_EXPR "" nullptrT ⟨3, 14⟩
    ⟨exampleFile, ⟨3, 14⟩, ⟨3, 21⟩⟩ .nil

/-- The `q = nullptr` assignment node of §8, typed `int*` after the LHS:
its stripped type has *type* kind `INT`, so the literal comparison against
the cursor-kind constants fails and no finding is produced. -/
def assignCursor : Cursor :=
  .mk .BINARY_OPERATOR "operator=" intPtrT ⟨3, 12⟩
    ⟨exampleFile, ⟨3, 10⟩, ⟨3, 21⟩⟩
    (.cons qRefCursor (.cons nullLitCursor .nil))

/-- `int* q = nullptr;` — the variable declaration. -/
def varQCursor : Cursor :=
  .mk .VAR_DECL "q" intPtrT ⟨3, 10⟩ ⟨exampleFile, ⟨3, 5⟩, ⟨3, 21⟩⟩
    (.cons assignCursor .nil)

/-- `int* q = nullptr;` — the declaration statement (line 3). -/
def declStmt2 : Cursor :=
  .mk .DECL_STMT "" voidT ⟨3, 5⟩ ⟨exampleFile, ⟨3, 5⟩, ⟨3, 22⟩⟩
    (.cons varQCursor .nil)

/-- The literal `5` (line 4). -/
def fiveLitCursor : Cursor :=
  .mk .INTEGER_LITERAL "" intT ⟨4, 22⟩ ⟨exampleFile, ⟨4, 22⟩, ⟨4, 23⟩⟩ .nil

/-- `new int(5)` (line 4, columns 14-24). -/
def newCursor : Cursor :=
  .mk .CXX_NEW_EXPR "" intPtrT ⟨4, 14⟩ ⟨exampleFile, ⟨4, 14⟩, ⟨4, 24⟩⟩
    (.cons fiveLitCursor .nil)

/-- `int* r = new int(5);` — the variable declaration. -/
def varRCursor : Cursor :=
  .mk .VAR_DECL "r" intPtrT ⟨4, 10⟩ ⟨exampleFile, ⟨4, 5⟩, ⟨4, 24⟩⟩
    (.cons newCursor .nil)

/-- `int* r = new int(5);` — the declaration statement (line 4). -/
def declStmt3 : Cursor :=
  .mk .DECL_STMT "" voidT ⟨4, 5⟩ ⟨exampleFile, ⟨4, 5⟩, ⟨4, 25⟩⟩
    (.cons varRCursor .nil)

/-- The literal `1` thrown on line 5. -/
def oneLitCursor : Cursor :=
  .mk .INTEGER_LITERAL "" intT ⟨5, 11⟩ ⟨exampleFile, ⟨5, 11⟩, ⟨5, 12⟩⟩ .nil

/-- `throw 1` (line 5, columns 5-12). -/
def throwCursor : Cursor :=
  .mk .CXX_THROW_EXPR "" voidT ⟨5, 5⟩ ⟨exampleFile, ⟨5, 5⟩, ⟨5, 12⟩⟩
    (.cons oneLitCursor .nil)

/-- The parameter `int* p` (line 1). -/
def parmPCursor : Cursor :=
  .mk .PARM_DECL "p" intPtrT ⟨1, 13⟩ ⟨exampleFile, ⟨1, 8⟩, ⟨1, 14⟩⟩ .nil

/-- The function `f` itself: parameter first, then the four top-level
statements, as §4.3's scan contract presents the direct children. -/
def exampleF : Cursor :=
  .mk .FUNCTION_DECL "f" voidT ⟨1, 6⟩ ⟨exampleFile, ⟨1, 1⟩, ⟨6, 2⟩⟩
    (.cons parmPCursor (.cons declStmt1 (.cons declStmt2
      (.cons declStmt3 (.cons throwCursor .nil)))))

/-- Modelled from the spec: the clang facade that assigns types to nodes is
external to the repository, and §4.2 reads the dereference check as
inspecting "the pointee type of the operand (after canonical/typedef
resolution)" — i.e. the facade exposes the operand's pointer type as the
dereference node's `type`; this returns that type stripped of one level of
indirection and canonicalised, exactly the type the classifier tests. -/
def operand_pointee (c : Cursor) : CType := c.type.get_pointee.canonical

/-! ### Claim theorems -/

/-- C2: scanning the spec's end-to-end example function `f` yields exactly
three findings, in source order — `DEREFERENCE_NON_CONST_POINTER` for `*p`,
`DYNAMIC_MEMORY_ALLOCATION` for `new int(5)`, `THROW_EXCEPTION` for
`throw 1` — while the `q = nullptr` assignment subtree yields none. -/
theorem scan_example_f_three_findings :
    scan_function exampleContent exampleF =
      [ { kind := SideEffectKind.DEREFERENCE_NON_CONST_POINTER,
          location := ⟨exampleFile, ⟨2, 13⟩, ⟨2, 15⟩⟩, code := "*p" },
        { kind := SideEffectKind.DYNAMIC_MEMORY_ALLOCATION,
          location := ⟨exampleFile, ⟨4, 14⟩, ⟨4, 24⟩⟩, code := "new int(5)" },
        { kind := SideEffectKind.THROW_EXCEPTION,
          location := ⟨exampleFile, ⟨5, 5⟩, ⟨5, 12⟩⟩, code := "throw 1" } ] ∧
    has_side_effects exampleContent assignCursor = none :=
  ⟨rfl, rfl⟩

/-- C5: on a unary-dereference node (canonical spelling `operator*`), the
classifier yields exactly one `DEREFERENCE_NON_CONST_POINTER` finding whose
range is the node's own extent when the operand's canonical pointee type is
not const-qualified, and no finding when it is const-qualified. -/
theorem classify_dereference_const_check (content : String) (c : Cursor)
    (hk : c.kind = CursorKind.UNARY_OPERATOR)
    (hs : c.canonical.spelling = "operator*") :
    ((operand_pointee c).is_const_qualified = false →
      classify content c =
        some { kind := SideEffectKind.DEREFERENCE_NON_CONST_POINTER,
               location := c.extent,
               code := full_name_from_cursor content c }) ∧
    ((operand_pointee c).is_const_qualified = true →
      classify content c = none) := by
  unfold classify operand_pointee at *
  rw [hk, hs]
  constructor <;> intro hq <;> simp [hq]

/-- Witness for C5 at the example's `*p` (non-const pointee) and at a
dereference of a `const int*` (const pointee). -/
theorem classify_dereference_const_check_witness :
    (derefCursor.kind = CursorKind.UNARY_OPERATOR ∧
     derefCursor.canonical.spelling = "operator*" ∧
     (operand_pointee derefCursor).is_const_qualified = false ∧
     classify exampleContent derefCursor =
       some { kind := SideEffectKind.DEREFERENCE_NON_CONST_POINTER,
              location := ⟨exampleFile, ⟨2, 13⟩, ⟨2, 15⟩⟩, code := "*p" }) ∧
    ((operand_pointee (Cursor.mk .UNARY_OPERATOR "operator*" constIntPtrT
        ⟨1, 1⟩ ⟨exampleFile, ⟨1, 1⟩, ⟨1, 3⟩⟩ .nil)).is_const_qualified = true ∧
     classify exampleContent (Cursor.mk .UNARY_OPERATOR "operator*" constIntPtrT
        ⟨1, 1⟩ ⟨exampleFile, ⟨1, 1⟩, ⟨1, 3⟩⟩ .nil) = none) :=
  ⟨⟨rfl, rfl, rfl,
    (classify_dereference_const_check exampleContent derefCursor rfl rfl).1 rfl⟩,
   ⟨rfl,
    (classify_dereference_const_check exampleContent
      (Cursor.mk .UNARY_OPERATOR "operator*" constIntPtrT
        ⟨1, 1⟩ ⟨exampleFile, ⟨1, 1⟩, ⟨1, 3⟩⟩ .nil) rfl rfl).2 rfl⟩⟩

/-- C1: two matching nodes that are separate direct children at the top
statement level of a scanned function — neither an ancestor of the other —
produce exactly two findings, in source order; all other top-level subtrees
contributing nothing, the matches inside `c1`'s and `c2`'s subtrees are
suppressed and only the two sibling matches are reported. -/
theorem scan_two_top_level_siblings (content : String) (k : CursorKind)
    (sp : String) (ty : CType) (loc : SourceLocation) (ext : SourceRange)
    (pre mid post : List Cursor) (c1 c2 : Cursor) (f1 f2 : SideEffectInfo)
    (hpre : ∀ x ∈ pre, has_side_effects content x = none)
    (hmid : ∀ x ∈ mid, has_side_effects content x = none)
    (hpost : ∀ x ∈ post, has_side_effects content x = none)
    (h1 : classify content c1 = some f1)
    (h2 : classify content c2 = some f2) :
    scan_function content
      (.mk k sp ty loc ext
        (CursorList.ofList (pre ++ c1 :: mid ++ c2 :: post))) = [f1, f2] := by
  show scan_children content
    (CursorList.ofList (pre ++ c1 :: mid ++ c2 :: post)) = [f1, f2]
  rw [scan_children_ofList]
  simp [List.filterMap_cons, List.filterMap_append,
    filterMap_none_of_all_none content pre hpre,
    filterMap_none_of_all_none content mid hmid,
    filterMap_none_of_all_none content post hpost,
    has_side_effects_of_classify content c1 f1 h1,
    has_side_effects_of_classify content c2 f2 h2]

/-- Witness for C1: a function whose two top-level statements are the
example's `throw 1` and a `new int(5)`; both classifier matches are
reported, in order. -/
theorem scan_two_top_level_siblings_witness :
    classify exampleContent newCursor =
      some { kind := SideEffectKind.DYNAMIC_MEMORY_ALLOCATION,
             location := ⟨exampleFile, ⟨4, 14⟩, ⟨4, 24⟩⟩,
             code := "new int(5)" } ∧
    classify exampleContent throwCursor =
      some { kind := SideEffectKind.THROW_EXCEPTION,
             location := ⟨exampleFile, ⟨5, 5⟩, ⟨5, 12⟩⟩, code := "throw 1" } ∧
    scan_function exampleContent
      (.mk .FUNCTION_DECL "g" voidT ⟨1, 6⟩ ⟨exampleFile, ⟨1, 1⟩, ⟨6, 2⟩⟩
        (CursorList.ofList ([] ++ newCursor :: [] ++ throwCursor :: []))) =
      [ { kind := SideEffectKind.DYNAMIC_MEMORY_ALLOCATION,
          location := ⟨exampleFile, ⟨4, 14⟩, ⟨4, 24⟩⟩, code := "new int(5)" },
        { kind := SideEffectKind.THROW_EXCEPTION,
          location := ⟨exampleFile, ⟨5, 5⟩, ⟨5, 12⟩⟩, code := "throw 1" } ] :=
  ⟨rfl, rfl,
   scan_two_top_level_siblings exampleContent .FUNCTION_DECL "g" voidT
     ⟨1, 6⟩ ⟨exampleFile, ⟨1, 1⟩, ⟨6, 2⟩⟩ [] [] [] newCursor throwCursor _ _
     (fun _ hx => nomatch hx) (fun _ hx => nomatch hx)
     (fun _ hx => nomatch hx) rfl rfl⟩

/-- C10: `scan_function` iterates over every direct child of the
function-declaration node, not only the body compound statement: a match
found inside a parameter-declaration child (e.g. in a default-argument
initializer) produces its own finding, counted separately from and ordered
before the finding from the body child. -/
theorem scan_includes_parameter_children (content : String) (k : CursorKind)
    (sp : String) (ty : CType) (loc : SourceLocation) (ext : SourceRange)
    (pre mid post : List Cursor) (param body : Cursor) (f1 f2 : SideEffectInfo)
    (hpre : ∀ x ∈ pre, has_side_effects content x = none)
    (hmid : ∀ x ∈ mid, has_side_effects content x = none)
    (hpost : ∀ x ∈ post, has_side_effects content x = none)
    (_hparam : param.kind = CursorKind.PARM_DECL)
    (h1 : has_side_effects content param = some f1)
    (h2 : has_side_effects content body = some f2) :
    scan_function content
      (.mk k sp ty loc ext
        (CursorList.ofList (pre ++ param :: mid ++ body :: post))) =
      [f1, f2] := by
  show scan_children content
    (CursorList.ofList (pre ++ param :: mid ++ body :: post)) = [f1, f2]
  rw [scan_children_ofList]
  simp [List.filterMap_cons, List.filterMap_append,
    filterMap_none_of_all_none content pre hpre,
    filterMap_none_of_all_none content mid hmid,
    filterMap_none_of_all_none content post hpost, h1, h2]

/-- Witness for C10: a parameter `int* p = new int(5)` whose
default-argument initializer contains the allocation; the parameter's
finding is reported and precedes the body's `throw 1` finding. -/
theorem scan_includes_parameter_children_witness :
    (Cursor.mk .PARM_DECL "p" intPtrT ⟨1, 13⟩
        ⟨exampleFile, ⟨1, 8⟩, ⟨1, 14⟩⟩ (.cons newCursor .nil)).kind =
      CursorKind.PARM_DECL ∧
    has_side_effects exampleContent
      (Cursor.mk .PARM_DECL "p" intPtrT ⟨1, 13⟩
        ⟨exampleFile, ⟨1, 8⟩, ⟨1, 14⟩⟩ (.cons newCursor .nil)) =
      some { kind := SideEffectKind.DYNAMIC_MEMORY_ALLOCATION,
             location := ⟨exampleFile, ⟨4, 14⟩, ⟨4, 24⟩⟩,
             code := "new int(5)" } ∧
    scan_function exampleContent
      (.mk .FUNCTION_DECL "h" voidT ⟨1, 6⟩ ⟨exampleFile, ⟨1, 1⟩, ⟨6, 2⟩⟩
        (CursorList.ofList
          ([] ++ (Cursor.mk .PARM_DECL "p" intPtrT ⟨1, 13⟩
              ⟨exampleFile, ⟨1, 8⟩, ⟨1, 14⟩⟩ (.cons newCursor .nil)) ::
            [] ++ throwCursor :: []))) =
      [ { kind := SideEffectKind.DYNAMIC_MEMORY_ALLOCATION,
          location := ⟨exampleFile, ⟨4, 14⟩, ⟨4, 24⟩⟩, code := "new int(5)" },
        { kind := SideEffectKind.THROW_EXCEPTION,
          location := ⟨exampleFile, ⟨5, 5⟩, ⟨5, 12⟩⟩, code := "throw 1" } ] :=
  ⟨rfl, rfl,
   scan_includes_parameter_children exampleContent .FUNCTION_DECL "h" voidT
     ⟨1, 6⟩ ⟨exampleFile, ⟨1, 1⟩, ⟨6, 2⟩⟩ [] [] []
     (Cursor.mk .PARM_DECL "p" intPtrT ⟨1, 13⟩
       ⟨exampleFile, ⟨1, 8⟩, ⟨1, 14⟩⟩ (.cons newCursor .nil)) throwCursor _ _
     (fun _ hx => nomatch hx) (fun _ hx => nomatch hx)
     (fun _ hx => nomatch hx) rfl rfl rfl⟩

/-- C6: a scanned function none of whose subtrees contains a node matching
a dereference, assignment, allocation or throw pattern, at any nesting
depth, scans to the empty sequence of findings. -/
theorem scan_empty_of_no_matching_node (content : String) (c : Cursor)
    (h : children_pattern_free c.children = true) :
    scan_function content c = [] :=
  scan_children_nil_of_pattern_free content c.children h

/-- A variable declaration with no initializer, matching nothing. -/
def noMatchVarCursor : Cursor :=
  .mk .VAR_DECL "x" intT ⟨2, 9⟩ ⟨"g.cpp", ⟨2, 5⟩, ⟨2, 10⟩⟩ .nil

/-- `int x;` — a declaration statement matching nothing. -/
def noMatchStmtCursor : Cursor :=
  .mk .DECL_STMT "" voidT ⟨2, 5⟩ ⟨"g.cpp", ⟨2, 5⟩, ⟨2, 11⟩⟩
    (.cons noMatchVarCursor .nil)

/-- `void g() { int x; }` — a function with no matching node anywhere. -/
def noMatchFunc : Cursor :=
  .mk .FUNCTION_DECL "g" voidT ⟨1, 6⟩ ⟨"g.cpp", ⟨1, 1⟩, ⟨3, 2⟩⟩
    (.cons noMatchStmtCursor .nil)

/-- Witness for C6 at the pattern-free function `void g() { int x; }`. -/
theorem scan_empty_of_no_matching_node_witness :
    children_pattern_free noMatchFunc.children = true ∧
    scan_function "void g() \x7b\n    int x;\n\x7d\n" noMatchFunc = [] :=
  ⟨rfl, scan_empty_of_no_matching_node "void g() \x7b\n    int x;\n\x7d\n"
    noMatchFunc rfl⟩

/-- C3: the classifier emits `ASSIGN_TO_POINTER_OR_REFERENCE` exactly when
the node is a binary-assignment operator spelled `=` or `&=` whose
left-hand type, stripped of one level of indirection and canonicalised, has
a kind equal — under the source's literal comparison — to the cursor-kind
constants `POINTER_TYPE` or `LVALUE_REFERENCE`; the cross-domain comparison
is reproduced as specified, not corrected. -/
theorem classify_assign_iff_literal_check (content : String) (c : Cursor) :
    (∃ f, classify content c = some f ∧
        f.kind = SideEffectKind.ASSIGN_TO_POINTER_OR_REFERENCE) ↔
    assign_pattern c = true := by
  rcases c with ⟨k, sp, ty, loc, ext, ch⟩
  cases k <;>
    simp [classify, assign_pattern, Cursor.canonical, Cursor.kind,
      Cursor.spelling, Cursor.type]

/-- C8: every finding the classifier emits carries one of the four active
tags and never `OTHER`, and the four §4.2 patterns are pairwise mutually
exclusive, so a single node matches at most one pattern under the fixed
precedence. -/
theorem classify_kind_invariant :
    (∀ (content : String) (c : Cursor) (f : SideEffectInfo),
        classify content c = some f →
          f.kind ≠ SideEffectKind.OTHER ∧
          (f.kind = SideEffectKind.DEREFERENCE_NON_CONST_POINTER ∨
           f.kind = SideEffectKind.ASSIGN_TO_POINTER_OR_REFERENCE ∨
           f.kind = SideEffectKind.DYNAMIC_MEMORY_ALLOCATION ∨
           f.kind = SideEffectKind.THROW_EXCEPTION)) ∧
    (∀ c : Cursor,
      ¬(deref_pattern c = true ∧ assign_pattern c = true) ∧
      ¬(deref_pattern c = true ∧ alloc_pattern c = true) ∧
      ¬(deref_pattern c = true ∧ throw_pattern c = true) ∧
      ¬(assign_pattern c = true ∧ alloc_pattern c = true) ∧
      ¬(assign_pattern c = true ∧ throw_pattern c = true) ∧
      ¬(alloc_pattern c = true ∧ throw_pattern c = true)) := by
  constructor
  · intro content c f h
    rcases c with ⟨k, sp, ty, loc, ext, ch⟩
    cases k <;>
      simp [classify, Cursor.canonical, Cursor.kind, Cursor.spelling,
        Cursor.type] at h <;>
      (obtain ⟨-, -, rfl⟩ := h; simp)
  · intro c
    rcases c with ⟨k, sp, ty, loc, ext, ch⟩
    cases k <;>
      simp [deref_pattern, assign_pattern, alloc_pattern, throw_pattern,
        Cursor.kind]

/-- Witness for C8 at the example's `throw 1` node. -/
theorem classify_kind_invariant_witness :
    classify exampleContent throwCursor =
      some { kind := SideEffectKind.THROW_EXCEPTION,
             location := ⟨exampleFile, ⟨5, 5⟩, ⟨5, 12⟩⟩, code := "throw 1" } ∧
    ({ kind := SideEffectKind.THROW_EXCEPTION,
       location := ⟨exampleFile, ⟨5, 5⟩, ⟨5, 12⟩⟩,
       code := "throw 1" } : SideEffectInfo).kind ≠ SideEffectKind.OTHER :=
  ⟨rfl, (classify_kind_invariant.1 exampleContent throwCursor _ rfl).1⟩

/-- The predicate of `main`'s loop: a scanned (function or method) cursor
with at least one finding. -/
def scanned_with_findings (content : String) (c : Cursor) : Bool :=
  decide (c.kind = CursorKind.CXX_METHOD ∨
          c.kind = CursorKind.FUNCTION_DECL) &&
  !(scan_function content c).isEmpty

/-- The loop of `main`, unrolled: the report blocks of the scanned
functions with findings, in encounter order, followed by the summary line
exactly when the `no_side_effects` flag came in true and no block was
printed. -/
theorem main_loop_eq (content : String) :
    ∀ (l : List Cursor) (b : Bool),
      main_loop content (CursorList.ofList l) b =
        ((l.filter (scanned_with_findings content)).map
          (fun c => print_side_effect_info c.spelling
            (scan_function content c))).flatten ++
        (if b && (l.filter (scanned_with_findings content)).isEmpty
         then ["No side effects found."] else [])
  | [], b => by cases b <;> simp [CursorList.ofList, main_loop]
  | c :: rest, b => by
    rw [CursorList.ofList]
    by_cases hk : c.kind = CursorKind.CXX_METHOD ∨
        c.kind = CursorKind.FUNCTION_DECL
    · by_cases hs : scan_function content c = []
      · simp [main_loop, hk, hs, main_loop_eq content rest b,
          List.filter_cons, scanned_with_findings]
      · simp [main_loop, hk, hs, main_loop_eq content rest false,
          List.filter_cons, scanned_with_findings]
    · simp [main_loop, hk, main_loop_eq content rest b, List.filter_cons,
        scanned_with_findings]

/-- C7: over a whole file, `main` prints the single fixed summary line
exactly when no scanned function produced a finding — and then it is the
only output; otherwise the output is exactly the per-function blocks of
the functions with at least one finding, in file encounter order. -/
theorem main_output_summary_iff (content : String) (l : List Cursor) :
    (main_output content (CursorList.ofList l) =
      if (l.filter (scanned_with_findings content)).isEmpty
      then ["No side effects found."]
      else ((l.filter (scanned_with_findings content)).map (fun c =>
        print_side_effect_info c.spelling (scan_function content c))).flatten) ∧
    ((l.filter (scanned_with_findings content)).isEmpty = true ↔
      ∀ c ∈ l, c.kind = CursorKind.CXX_METHOD ∨
          c.kind = CursorKind.FUNCTION_DECL → scan_function content c = []) := by
  constructor
  · unfold main_output
    rw [main_loop_eq content l true]
    by_cases h : (l.filter (scanned_with_findings content)).isEmpty
    · rw [List.isEmpty_iff.mp h]
      simp
    · simp [h]
  · rw [List.isEmpty_iff, List.filter_eq_nil_iff]
    constructor
    · intro h c hc hk
      have := h c hc
      simpa [scanned_with_findings, hk] using this
    · intro h c hc
      simp only [scanned_with_findings, Bool.and_eq_true, Bool.not_eq_true',
        decide_eq_true_eq, not_and]
      intro hk
      simp [h c hc hk]

/-- Python `s[a:]`. -/
def py_drop (s : String) (a : Nat) : String := String.mk (s.data.drop a)

/-- Python `s[:b]`. -/
def py_take (s : String) (b : Nat) : String := String.mk (s.data.take b)

/-- Joining a list of strings with single spaces. -/
def join_with_spaces : List String → String
  | [] => ""
  | [x] => x
  | x :: y :: ys => x ++ " " ++ join_with_spaces (y :: ys)

/-- Code-text reconstruction exactly as the claim words it: for a
single-line range, the substring of the range's line between start and end
column; for a multi-line range, the start line's trailing portion (from the
start column), each interior full line, and the end line's leading portion
(up to the end column), joined by single spaces; in both cases one trailing
semicolon is stripped if present. -/
def claimed_reconstruction (content : String) (r : SourceRange) : String :=
  let lines := splitlines content
  let base :=
    if r.start.line = r.stop.line then
      py_slice (lines.getD (r.start.line - 1) "") (r.start.column - 1)
        (r.stop.column - 1)
    else
      join_with_spaces
        (py_drop (lines.getD (r.start.line - 1) "") (r.start.column - 1) ::
         ((List.range' r.start.line (r.stop.line - 1 - r.start.line)).map
           (fun l => lines.getD l "")) ++
         [py_take (lines.getD (r.stop.line - 1) "") (r.stop.column - 1)])
  if ends_with_semicolon base then py_drop_last base else base

/-- The reconstruction the code actually performs, stated independently of
the fold in `full_name_from_cursor`: for a single-line range, the
whitespace-trimmed substring of the row given by the cursor's location
line, between start and end column; for a multi-line range, all lines from
the start line through the end line, each whitespace-trimmed whole, joined
by single spaces; then one trailing semicolon stripped and the result
re-trimmed. -/
def amended_reconstruction (content : String) (loc_line : Nat)
    (r : SourceRange) : String :=
  let lines := splitlines content
  let base :=
    if r.start.line = r.stop.line then
      py_strip (py_slice (lines.getD (loc_line - 1) "")
        (r.start.column - 1) (r.stop.column - 1))
    else
      join_with_spaces
        ((List.range' (r.start.line - 1) (r.stop.line - r.start.line + 1)).map
          (fun l => py_strip (lines.getD l "")))
  if ends_with_semicolon base then py_strip (py_drop_last base) else base

/-- Appending to the accumulator commutes out of the space-joining fold. -/
theorem foldl_join_pull (a : String) :
    ∀ (l : List String) (b : String),
      l.foldl (fun acc y => acc ++ " " ++ y) (a ++ " " ++ b) =
        a ++ " " ++ l.foldl (fun acc y => acc ++ " " ++ y) b
  | [], _ => rfl
  | y :: ys, b => by
    simp only [List.foldl_cons]
    rw [show a ++ " " ++ b ++ " " ++ y = a ++ " " ++ (b ++ " " ++ y) by
      simp [String.append_assoc]]
    exact foldl_join_pull a ys (b ++ " " ++ y)

/-- `join_with_spaces` is the left fold the source builds. -/
theorem join_with_spaces_cons :
    ∀ (l : List String) (x : String),
      join_with_spaces (x :: l) = l.foldl (fun acc y => acc ++ " " ++ y) x
  | [], _ => rfl
  | y :: ys, x => by
    rw [show join_with_spaces (x :: y :: ys) =
          x ++ " " ++ join_with_spaces (y :: ys) from rfl,
        join_with_spaces_cons ys y]
    simp only [List.foldl_cons]
    exact (foldl_join_pull x ys y).symm

/-- A throw-expression cursor covering `throw expr` on one line. -/
def throwTextCursor : Cursor :=
  .mk .CXX_THROW_EXPR "" voidT ⟨1, 1⟩ ⟨"t.cpp", ⟨1, 1⟩, ⟨1, 11⟩⟩ .nil

/-- C4 counterexample content: a two-line extent starting mid-line. -/
def cexContent : String := "xx throw\n  y;"

/-- C4 counterexample cursor: extent from line 1 column 4 to line 2
column 4. -/
def cexCursor : Cursor :=
  .mk .CXX_THROW_EXPR "" voidT ⟨1, 4⟩ ⟨"cex.cpp", ⟨1, 4⟩, ⟨2, 4⟩⟩ .nil

/-- C4 counterexample: on a multi-line range that starts mid-line the code
does not reconstruct the column-sliced portions the claim describes — it
joins whole trimmed lines ("xx throw y" here) where the claim's rule gives
"throw   y". -/
theorem full_name_multiline_counterexample :
    full_name_from_cursor cexContent cexCursor ≠
      claimed_reconstruction cexContent cexCursor.extent := by decide

/-- C4 (amended): the code text of a finding is reconstructed by slicing
the original file content — for single-line ranges the trimmed substring of
the cursor-location row between start and end column, for multi-line
ranges the whole lines of the range each trimmed and joined by single
spaces — with one trailing semicolon stripped and the result re-trimmed;
in particular a `throw expr;` statement's finding has code text exactly
"throw expr". -/
theorem full_name_amended_reconstruction :
    (∀ (content : String) (c : Cursor),
        1 ≤ c.extent.start.line →
        c.extent.start.line ≤ c.extent.stop.line →
        full_name_from_cursor content c =
          amended_reconstruction content c.location.line c.extent) ∧
    classify "throw expr;\n" throwTextCursor =
      some { kind := SideEffectKind.THROW_EXCEPTION,
             location := ⟨"t.cpp", ⟨1, 1⟩, ⟨1, 11⟩⟩, code := "throw expr" } := by
  constructor
  · intro content c h1 h2
    unfold full_name_from_cursor amended_reconstruction
    by_cases he : c.extent.start.line = c.extent.stop.line
    · simp [he]
    · have hlt : c.extent.start.line < c.extent.stop.line :=
        lt_of_le_of_ne h2 he
      simp only [he, if_false]
      have hrange : List.range' (c.extent.start.line - 1)
          (c.extent.stop.line - c.extent.start.line + 1) =
          (c.extent.start.line - 1) ::
            (List.range' c.extent.start.line
              (c.extent.stop.line - 1 - c.extent.start.line) ++
             [c.extent.stop.line - 1]) := by
        have hm : c.extent.stop.line - c.extent.start.line + 1 =
            (c.extent.stop.line - 1 - c.extent.start.line + 1) + 1 := by omega
        rw [hm, List.range'_succ]
        have hs1 : c.extent.start.line - 1 + 1 = c.extent.start.line := by omega
        rw [hs1, List.range'_concat]
        have he1 : c.extent.start.line +
            1 * (c.extent.stop.line - 1 - c.extent.start.line) =
            c.extent.stop.line - 1 := by omega
        rw [he1]
      rw [hrange]
      rw [List.map_cons, join_with_spaces_cons, List.map_append,
        List.foldl_append]
      simp [List.foldl_map]

  · rfl

/-- Witness for C4's amended reconstruction at the counterexample's
two-line range. -/
theorem full_name_amended_reconstruction_witness :
    1 ≤ cexCursor.extent.start.line ∧
    cexCursor.extent.start.line ≤ cexCursor.extent.stop.line ∧
    full_name_from_cursor cexContent cexCursor =
      amended_reconstruction cexContent cexCursor.location.line
        cexCursor.extent :=
  ⟨by decide, by decide,
   full_name_amended_reconstruction.1 cexContent cexCursor (by decide)
     (by decide)⟩

/-- A dereference node whose type information is unresolvable: the clang
binding reports the invalid type, with no pointee, for dependent or
otherwise unresolved types. -/
def unresolvedDerefCursor : Cursor :=
  .mk .UNARY_OPERATOR "operator*" CType.invalid ⟨1, 1⟩
    ⟨"u.cpp", ⟨1, 1⟩, ⟨1, 3⟩⟩ .nil

/-- C9 counterexample: a node with unresolvable type information does not
fall through to "no match" — the dereference branch treats the invalid
pointee as non-const and emits a finding for it. -/
theorem classify_unresolvable_type_matches :
    classify "*x;" unresolvedDerefCursor =
      some { kind := SideEffectKind.DEREFERENCE_NON_CONST_POINTER,
             location := ⟨"u.cpp", ⟨1, 1⟩, ⟨1, 3⟩⟩, code := "*x" } := rfl

/-- C9 (amended): classification is a total function of the node — every
node yields a finding or no-match, never a failure; a binary-assignment
node falls through to "no match" whatever the shape of its left-hand side
(the literal type-kind-vs-cursor-kind comparison holds for no facade
type), while a unary-dereference node with unresolvable type information
is treated as a non-const dereference and matches rather than falling
through. -/
theorem classify_no_raise_amended :
    (∀ (content : String) (c : Cursor),
        c.kind = CursorKind.BINARY_OPERATOR → classify content c = none) ∧
    (∀ (content : String) (c : Cursor),
        c.kind = CursorKind.UNARY_OPERATOR →
        c.canonical.spelling = "operator*" → c.type = CType.invalid →
        classify content c =
          some { kind := SideEffectKind.DEREFERENCE_NON_CONST_POINTER,
                 location := c.extent,
                 code := full_name_from_cursor content c }) := by
  constructor
  · intro content c hk
    unfold classify
    simp [hk]
  · intro content c hk hs hty
    unfold classify
    simp [hk, hs, hty, Cursor.canonical, CType.invalid, CType.get_pointee,
      CType.canonical, CType.is_const_qualified]
    exact hs

/-- Witness for C9's amended statement at the example's assignment node
and at the unresolvable dereference. -/
theorem classify_no_raise_amended_witness :
    assignCursor.kind = CursorKind.BINARY_OPERATOR ∧
    classify exampleContent assignCursor = none ∧
    unresolvedDerefCursor.kind = CursorKind.UNARY_OPERATOR ∧
    classify "*x;" unresolvedDerefCursor =
      some { kind := SideEffectKind.DEREFERENCE_NON_CONST_POINTER,
             location := unresolvedDerefCursor.extent,
             code := full_name_from_cursor "*x;" unresolvedDerefCursor } :=
  ⟨rfl, classify_no_raise_amended.1 exampleContent assignCursor rfl, rfl,
   classify_no_raise_amended.2 "*x;" unresolvedDerefCursor rfl rfl rfl⟩

end Scanner
